import Mathlib

/-!
Verification of the critview curve-viewer core (src/critview_app.py).

The embedding translates the module-level tables and functions of the
source file.  Numeric cell values are modelled as rationals (`ℚ`); a raw
CSV cell that is non-numeric or missing is modelled as `none`, matching
`pd.to_numeric(errors='coerce')` followed by `dropna`.  Third-party
library calls (`scipy.interpolate.UnivariateSpline`, `np.linspace`) are
not part of this repository; they are modelled from the spec where
noted.
-/

/-- The `CONVERSION_FACTORS` table of the source (lines 10-45): each
category maps unit names to positive scalars relative to the category
base unit, in source order. -/
def CONVERSION_FACTORS : List (String × List (String × ℚ)) :=
  [ ("length",
      [ ("centimeters (cm)", 1.0)
      , ("meters (m)", 100.0)
      , ("inches (in)", 2.54)
      , ("feet (ft)", 30.48) ])
  , ("concentration_vol",
      [ ("g/cc", 1.0)
      , ("g/L", 1000.0)
      , ("kg/m^3", 1000.0)
      , ("g/ft^3", 28316.8466) ])
  , ("mass",
      [ ("grams (g)", 1.0)
      , ("kilograms (kg)", 1000.0)
      , ("ounces (oz)", 28.3495)
      , ("pounds (lb)", 453.592) ])
  , ("volume",
      [ ("cm^3 (cc)", 1.0)
      , ("liters (L)", 1000.0)
      , ("in^3", 16.3871)
      , ("ft^3", 28316.8466)
      , ("gallons (US)", 3785.41) ])
  , ("concentration_linear",
      [ ("g/ft", 1.0)
      , ("g/cm", 30.48)
      , ("kg/m", 32.8084) ])
  , ("concentration_areal",
      [ ("kg/ft^2", 1.0)
      , ("g/cm^2", 10.7639) ]) ]

/-- The `VARIABLE_TO_CATEGORY` table of the source (lines 49-69): semantic
variable name to (category, native unit). -/
def VARIABLE_TO_CATEGORY : List (String × (String × String)) :=
  [ ("Diameter in", ("length", "inches (in)"))
  , ("Height in", ("length", "inches (in)"))
  , ("Radius in", ("length", "inches (in)"))
  , ("Thickness in", ("length", "inches (in)"))
  , ("critconc g/cc", ("concentration_vol", "g/cc"))
  , ("critconc g/L", ("concentration_vol", "g/L"))
  , ("critconc_linear g/ft", ("concentration_linear", "g/ft"))
  , ("critconc_areal kg/ft2", ("concentration_areal", "kg/ft^2"))
  , ("critmass kg", ("mass", "kilograms (kg)"))
  , ("volume L", ("volume", "liters (L)"))
  , ("volume gal", ("volume", "gallons (US)")) ]

/-- Python `dict` lookup over an association list (first matching key),
modelling `d[k]` / `k in d` on the insertion-ordered dictionaries of the
source. -/
def lookupPairs {α : Type} (l : List (String × α)) (key : String) : Option α :=
  (l.find? (fun p => p.1 = key)).map Prod.snd

/-- `CONVERSION_FACTORS[category]`: the unit table of a category. -/
def categoryUnits (category : String) : Option (List (String × ℚ)) :=
  lookupPairs CONVERSION_FACTORS category

/-- `CONVERSION_FACTORS[category][unit]`: the scalar registered for a
unit inside a category. -/
def conversionValue (category unit : String) : Option ℚ :=
  (categoryUnits category).bind (fun units => lookupPairs units unit)

/-- `get_unit_info` (source lines 71-80): returns
(category, base unit, selectable unit names).  A bound variable yields
its bound category and native unit and the keys of that category's
table; an unbound variable yields the synthetic "unknown" category with
the variable name as only unit. -/
def get_unit_info (var_name : String) : String × String × List String :=
  match lookupPairs VARIABLE_TO_CATEGORY var_name with
  | some (category, base_unit) =>
      (category, base_unit, ((categoryUnits category).getD []).map Prod.fst)
  | none => ("unknown", var_name, [var_name])

/-- The per-axis conversion factor of the main flow (source lines
247-254): `1.0` for the "unknown" category, otherwise
`CONVERSION_FACTORS[category][base_unit] / CONVERSION_FACTORS[category][unit_selected]`. -/
def conv_factor (category base_unit unit_selected : String) : ℚ :=
  if category = "unknown" then 1.0
  else (conversionValue category base_unit).getD 1
        / (conversionValue category unit_selected).getD 1

/-- Element-wise application of a conversion factor,
`x_display = x_raw * x_conv_factor` (source line 259). -/
def applyFactor (values : List ℚ) (factor : ℚ) : List ℚ :=
  values.map (fun v => v * factor)

/-- One CSV row as read from disk.  `xCell`/`yCell` are `none` when the
`X_Value`/`Y_Value` cell is non-numeric or missing (what
`pd.to_numeric(errors='coerce')` turns into NaN). -/
structure RawRow where
  title : String
  xCell : Option ℚ
  yCell : Option ℚ
  xVar : String
  yVar : String
  attrs : List (String × String)
deriving DecidableEq, Repr

/-- One row surviving `load_data`: numeric x and y values. -/
structure Row where
  title : String
  xValue : ℚ
  yValue : ℚ
  xVar : String
  yVar : String
  attrs : List (String × String)
deriving DecidableEq, Repr

instance : Inhabited Row := ⟨⟨"", 0, 0, "", "", []⟩⟩

/-- A raw row survives loading iff both value cells are numeric. -/
def loadRow (r : RawRow) : Option Row :=
  match r.xCell, r.yCell with
  | some x, some y => some ⟨r.title, x, y, r.xVar, r.yVar, r.attrs⟩
  | _, _ => none

/-- `load_data` (source lines 92-97): coerce `X_Value`/`Y_Value` to
numbers and drop every row in which either is missing, keeping the
remaining rows in file order. -/
def load_data (rs : List RawRow) : List Row :=
  rs.filterMap loadRow

/-- `df[df['title'] == curve_title]` (source line 113): the rows of one
curve, in dataset order. -/
def curveRows (curve_title : String) (df : List Row) : List Row :=
  df.filter (fun r => r.title = curve_title)

/-- The value of the fitted-spline tuple when fitting succeeds: the two
node-value arrays that determine the interpolants, the synthetic
parameter, the spline degree и the axis variable names. -/
structure FittedCurve where
  xVals : List ℚ
  yVals : List ℚ
  tData : List ℕ
  k : ℕ
  xVar : String
  yVar : String
deriving DecidableEq, Repr

/-- Modelled from the spec: `scipy.interpolate.UnivariateSpline` is
third-party code absent from this repository.  With `s=0` the spec
describes the result as a smooth interpolant over the parameter domain
`[0, n-1]` that passes through the sample points exactly
(`X(t_i) = x_i`).  This model evaluates exactly the node value at every
integer parameter (the property the spec constrains) and blends the two
neighbouring node values linearly in between; parameters outside the
domain are clamped to the outermost segment. -/
def splineEval (vals : List ℚ) (t : ℚ) : ℚ :=
  if vals.length < 2 then vals.headD 0
  else
    let i : ℤ := min ((vals.length : ℤ) - 2) (max 0 ⌊t⌋)
    let j : ℕ := i.toNat
    vals.getD j 0 + (t - (i : ℚ)) * (vals.getD (j + 1) 0 - vals.getD j 0)

/-- `get_fitted_spline` (source lines 107-135): select the title's rows
from the unfiltered dataset, refuse fewer than 2 points (`None` models
the all-`None` tuple), otherwise build the synthetic parameter
`t = 0..n-1`, the degree `k = min(3, n-1)` and the two interpolants
through `(t, x)` and `(t, y)`.  With distinct integer parameters and
`s=0` construction cannot fail, so the `except` branch is dead. -/
def get_fitted_spline (curve_title : String) (df : List Row) : Option FittedCurve :=
  let curve_df := curveRows curve_title df
  let n_points := curve_df.length
  if n_points < 2 then none
  else
    let x_data := curve_df.map (fun r => r.xValue)
    let y_data := curve_df.map (fun r => r.yValue)
    let x_var := (curve_df.map (fun r => r.xVar)).headD ""
    let y_var := (curve_df.map (fun r => r.yVar)).headD ""
    let t_data := List.range n_points
    let k_spline := min 3 (n_points - 1)
    some ⟨x_data, y_data, t_data, k_spline, x_var, y_var⟩

/-- Modelled from the spec: `np.linspace(start, stop, num)` is
third-party code absent from this repository; the spec describes it as
`num` evenly spaced values spanning `[start, stop]` inclusive. -/
def linspace (start stop : ℚ) (num : ℕ) : List ℚ :=
  if num = 0 then []
  else if num = 1 then [start]
  else (List.range num).map
    (fun (j : ℕ) => start + (stop - start) * (j : ℚ) / ((num : ℚ) - 1))

/-- The resampling of the main flow (source lines 268-278):
`t_fit = np.linspace(0, n-1, count)` evaluated through both interpolants
and paired, in parameter order.  The source fixes `count = 200`; the
spec's `resample` contract exposes the count. -/
def resample (fc : FittedCurve) (count : ℕ) : List (ℚ × ℚ) :=
  (linspace 0 ((fc.xVals.length : ℚ) - 1) count).map
    (fun t => (splineEval fc.xVals t, splineEval fc.yVals t))

/-- An attribute cell of a row, for the sidebar filters. -/
def attrValue (r : Row) (col : String) : Option String :=
  lookupPairs r.attrs col

/-- One sidebar selectbox filter (source lines 152-200): `none` models
the "All" choice, `some v` keeps the rows whose attribute equals `v`. -/
def applyAttrFilter (df : List Row) (col : String) (sel : Option String) : List Row :=
  match sel with
  | none => df
  | some v => df.filter (fun r => attrValue r col = some v)

/-- The chain of sidebar filters applied to the dataset copy. -/
def applyFilters (df : List Row) (filters : List (String × Option String)) : List Row :=
  filters.foldl (fun d cf => applyAttrFilter d cf.1 cf.2) df

/-- The fit call of the main flow (source line 221): the sidebar filter
selections are used only to narrow the title list; `get_fitted_spline`
receives the selected title and the UNFILTERED dataset `df`. -/
def main_fit (selected_title : String) (df : List Row)
    (filters : List (String × Option String)) : Option FittedCurve :=
  get_fitted_spline selected_title df

/-! ### Helper lemmas -/

theorem splineEval_node (vals : List ℚ) (j : ℕ) (h2 : 2 ≤ vals.length)
    (hj : j < vals.length) : splineEval vals (j : ℚ) = vals.getD j 0 := by
  rw [splineEval, if_neg (by omega)]
  simp only [Int.floor_natCast]
  rw [max_eq_right (Int.natCast_nonneg j)]
  by_cases hcase : (j : ℤ) ≤ (vals.length : ℤ) - 2
  · rw [min_eq_right hcase]
    simp
  · have hj1 : j = vals.length - 1 := by omega
    rw [min_eq_left (by omega : ((vals.length : ℤ) - 2) ≤ (j : ℤ))]
    have htn : ((vals.length : ℤ) - 2).toNat = vals.length - 2 := by omega
    rw [htn]
    have hc : ((((vals.length : ℤ) - 2) : ℤ) : ℚ) = (j : ℚ) - 1 := by
      have : (j : ℚ) = (vals.length : ℚ) - 1 := by
        rw [hj1]
        push_cast [Nat.cast_sub (by omega : 1 ≤ vals.length)]
        ring
      rw [this]
      push_cast
      ring
    rw [hc]
    have hidx : vals.length - 2 + 1 = j := by omega
    rw [hidx]
    ring_nf

theorem linspace_eq_map (start stop : ℚ) (num : ℕ) (h : 2 ≤ num) :
    linspace start stop num =
      (List.range num).map
        (fun (j : ℕ) => start + (stop - start) * (j : ℚ) / ((num : ℚ) - 1)) := by
  rw [linspace, if_neg (by omega), if_neg (by omega)]

theorem linspace_length (start stop : ℚ) (num : ℕ) (h : 2 ≤ num) :
    (linspace start stop num).length = num := by
  rw [linspace_eq_map start stop num h]
  simp

theorem linspace_getD (start stop : ℚ) (num j : ℕ) (h : 2 ≤ num) (hj : j < num) :
    (linspace start stop num).getD j 0 =
      start + (stop - start) * j / ((num : ℚ) - 1) := by
  rw [linspace_eq_map start stop num h,
    List.getD_eq_getElem _ _ (by simpa using hj)]
  simp

theorem linspace_first (start stop : ℚ) (num : ℕ) (h : 2 ≤ num) :
    (linspace start stop num).getD 0 0 = start := by
  rw [linspace_getD start stop num 0 h (by omega)]
  simp

theorem linspace_last (start stop : ℚ) (num : ℕ) (h : 2 ≤ num) :
    (linspace start stop num).getD (num - 1) 0 = stop := by
  rw [linspace_getD start stop num (num - 1) h (by omega)]
  have hne : ((num : ℚ) - 1) ≠ 0 := by
    have : (2 : ℚ) ≤ (num : ℚ) := by exact_mod_cast h
    intro habs
    linarith
  have hcast : (((num - 1 : ℕ)) : ℚ) = (num : ℚ) - 1 := by
    push_cast [Nat.cast_sub (by omega : 1 ≤ num)]
    ring
  rw [hcast, mul_div_assoc, div_self hne]
  ring

theorem linspace_strict_mono (start stop : ℚ) (num : ℕ) (hlt : start < stop) :
    (linspace start stop num).Pairwise (· < ·) := by
  rw [linspace]
  by_cases h0 : num = 0
  · simp [h0]
  · rw [if_neg h0]
    by_cases h1 : num = 1
    · simp [h1]
    · rw [if_neg h1]
      have hden : (0 : ℚ) < (num : ℚ) - 1 := by
        have : (2 : ℚ) ≤ (num : ℚ) := by exact_mod_cast (by omega : 2 ≤ num)
        linarith
      have hsp : (0 : ℚ) < stop - start := by linarith
      rw [List.pairwise_map]
      refine List.Pairwise.imp ?_ (List.pairwise_lt_range num)
      intro a b hab
      have hab2 : (a : ℚ) < (b : ℚ) := by exact_mod_cast hab
      apply add_lt_add_left
      rw [div_lt_div_iff hden hden]
      exact mul_lt_mul_of_pos_right (mul_lt_mul_of_pos_left hab2 hsp) hden

theorem get_fitted_spline_eq_some (curve_title : String) (df : List Row)
    (h : 2 ≤ (curveRows curve_title df).length) :
    get_fitted_spline curve_title df =
      some ⟨(curveRows curve_title df).map (fun r => r.xValue),
            (curveRows curve_title df).map (fun r => r.yValue),
            List.range (curveRows curve_title df).length,
            min 3 ((curveRows curve_title df).length - 1),
            ((curveRows curve_title df).map (fun r => r.xVar)).headD "",
            ((curveRows curve_title df).map (fun r => r.yVar)).headD ""⟩ := by
  rw [get_fitted_spline]
  simp only []
  rw [if_neg (by omega)]

theorem get_fitted_spline_some_elim (curve_title : String) (df : List Row)
    (fc : FittedCurve) (h : get_fitted_spline curve_title df = some fc) :
    2 ≤ (curveRows curve_title df).length ∧
    fc.xVals = (curveRows curve_title df).map (fun r => r.xValue) ∧
    fc.yVals = (curveRows curve_title df).map (fun r => r.yValue) := by
  by_cases h2 : (curveRows curve_title df).length < 2
  · rw [get_fitted_spline] at h
    simp only [] at h
    rw [if_pos h2] at h
    exact absurd h (by simp)
  · rw [get_fitted_spline_eq_some curve_title df (by omega)] at h
    obtain rfl := (Option.some_inj.mp h).symm
    exact ⟨by omega, rfl, rfl⟩

/-! ### Concrete sample data (the spec's concrete scenario: curve "A"
with samples [(0,0),(1,1),(2,4),(3,9)]) -/

def sampleDF : List Row :=
  [ ⟨"A", 0, 0, "Diameter in", "critmass kg", [("geometry", "sphere")]⟩
  , ⟨"A", 1, 1, "Diameter in", "critmass kg", [("geometry", "sphere")]⟩
  , ⟨"A", 2, 4, "Diameter in", "critmass kg", [("geometry", "sphere")]⟩
  , ⟨"A", 3, 9, "Diameter in", "critmass kg", [("geometry", "cylinder")]⟩
  , ⟨"C", 5, 6, "Height in", "volume L", [("geometry", "cylinder")]⟩ ]

def sampleDF2 : List Row :=
  sampleDF ++ [⟨"Z", 7, 8, "Radius in", "critmass kg", []⟩]

def sampleRaw : List RawRow :=
  [ ⟨"A", some 0, some 0, "Diameter in", "critmass kg", []⟩
  , ⟨"A", none, some 7, "Diameter in", "critmass kg", []⟩
  , ⟨"A", some 1, some 1, "Diameter in", "critmass kg", []⟩
  , ⟨"B", none, none, "Height in", "volume L", []⟩ ]

/-! ### Claim theorems -/

/-- C1: for every curve with n ≥ 2 valid samples, `get_fitted_spline`
succeeds and the two interpolants it builds pass through the sample
points exactly: `X(i) = x_i` and `Y(i) = y_i` for every integer
parameter `i` in `[0, n-1]` (zero-smoothing interpolation). -/
theorem fit_interpolates_samples (curve_title : String) (df : List Row)
    (h : 2 ≤ (curveRows curve_title df).length) :
    ∃ fc : FittedCurve,
      get_fitted_spline curve_title df = some fc ∧
      fc.xVals = (curveRows curve_title df).map (fun r => r.xValue) ∧
      fc.yVals = (curveRows curve_title df).map (fun r => r.yValue) ∧
      ∀ i : ℕ, i < (curveRows curve_title df).length →
        splineEval fc.xVals (i : ℚ) = fc.xVals.getD i 0 ∧
        splineEval fc.yVals (i : ℚ) = fc.yVals.getD i 0 := by
  refine ⟨_, get_fitted_spline_eq_some curve_title df h, rfl, rfl, ?_⟩
  intro i hi
  constructor
  · exact splineEval_node _ i (by simpa using h) (by simpa using hi)
  · exact splineEval_node _ i (by simpa using h) (by simpa using hi)

/-- Witness for C1 at the spec's concrete scenario. -/
theorem fit_interpolates_samples_witness :
    2 ≤ (curveRows "A" sampleDF).length ∧
    ∃ fc : FittedCurve,
      get_fitted_spline "A" sampleDF = some fc ∧
      fc.xVals = (curveRows "A" sampleDF).map (fun r => r.xValue) ∧
      fc.yVals = (curveRows "A" sampleDF).map (fun r => r.yValue) ∧
      ∀ i : ℕ, i < (curveRows "A" sampleDF).length →
        splineEval fc.xVals (i : ℚ) = fc.xVals.getD i 0 ∧
        splineEval fc.yVals (i : ℚ) = fc.yVals.getD i 0 :=
  ⟨by decide, fit_interpolates_samples "A" sampleDF (by decide)⟩

/-- C4: the spline degree chosen by `get_fitted_spline` is
`k = min(3, n-1)`: 2 points give degree 1, 3 points degree 2, 4 or more
points degree 3, and the degree never exceeds `n-1`. -/
theorem fit_spline_degree (curve_title : String) (df : List Row)
    (h : 2 ≤ (curveRows curve_title df).length) :
    ∃ fc : FittedCurve,
      get_fitted_spline curve_title df = some fc ∧
      fc.k = min 3 ((curveRows curve_title df).length - 1) ∧
      fc.k ≤ (curveRows curve_title df).length - 1 ∧
      ((curveRows curve_title df).length = 2 → fc.k = 1) ∧
      ((curveRows curve_title df).length = 3 → fc.k = 2) ∧
      (4 ≤ (curveRows curve_title df).length → fc.k = 3) := by
  refine ⟨_, get_fitted_spline_eq_some curve_title df h, rfl, ?_, ?_, ?_, ?_⟩
  · simp only []
    omega
  · intro hn; simp only [hn]; omega
  · intro hn; simp only [hn]; omega
  · intro hn
    simp only []
    omega

/-- Witness for C4: curve "A" has 4 samples, so the degree is 3. -/
theorem fit_spline_degree_witness :
    2 ≤ (curveRows "A" sampleDF).length ∧
    ∃ fc : FittedCurve,
      get_fitted_spline "A" sampleDF = some fc ∧
      fc.k = min 3 ((curveRows "A" sampleDF).length - 1) ∧
      fc.k ≤ (curveRows "A" sampleDF).length - 1 ∧
      ((curveRows "A" sampleDF).length = 2 → fc.k = 1) ∧
      ((curveRows "A" sampleDF).length = 3 → fc.k = 2) ∧
      (4 ≤ (curveRows "A" sampleDF).length → fc.k = 3) :=
  ⟨by decide, fit_spline_degree "A" sampleDF (by decide)⟩

/-- C5: for a curve with fewer than 2 valid samples, `get_fitted_spline`
returns the all-`None` result (modelled as `none`, the
`InsufficientData` report); being a total function of its inputs, it
does not raise, and the caller's `if spline_x is None: pass` branch
skips the curve without aborting. -/
theorem fit_insufficient_data (curve_title : String) (df : List Row)
    (h : (curveRows curve_title df).length < 2) :
    get_fitted_spline curve_title df = none := by
  rw [get_fitted_spline]
  simp only []
  rw [if_pos h]

/-- Witness for C5: curve "C" has one sample, curve "Z" has none. -/
theorem fit_insufficient_data_witness :
    (curveRows "C" sampleDF).length < 2 ∧
    get_fitted_spline "C" sampleDF = none :=
  ⟨by decide, fit_insufficient_data "C" sampleDF (by decide)⟩

theorem getD_map_lt {α β : Type} (l : List α) (f : α → β) (j : ℕ) (d : β)
    (d2 : α) (h : j < l.length) : (l.map f).getD j d = f (l.getD j d2) := by
  rw [List.getD_eq_getElem _ _ (by simpa using h), List.getD_eq_getElem _ _ h]
  simp

/-- C2: for every fitted curve with n samples and every count ≥ 2,
resampling evaluates both interpolants over `count` evenly spaced
parameters spanning `[0, n-1]` inclusive (strictly increasing), returns
exactly `count` points, and its first and last points are the first and
last original samples of the curve. -/
theorem resample_count_endpoints (curve_title : String) (df : List Row)
    (count : ℕ) (fc : FittedCurve)
    (hfit : get_fitted_spline curve_title df = some fc)
    (hc : 2 ≤ count) :
    (resample fc count).length = count ∧
    resample fc count =
      (linspace 0 ((fc.xVals.length : ℚ) - 1) count).map
        (fun t => (splineEval fc.xVals t, splineEval fc.yVals t)) ∧
    (linspace 0 ((fc.xVals.length : ℚ) - 1) count).Pairwise (· < ·) ∧
    (linspace 0 ((fc.xVals.length : ℚ) - 1) count).getD 0 0 = 0 ∧
    (linspace 0 ((fc.xVals.length : ℚ) - 1) count).getD (count - 1) 0 =
      (fc.xVals.length : ℚ) - 1 ∧
    (resample fc count).getD 0 (0, 0) =
      (((curveRows curve_title df).map (fun r => r.xValue)).getD 0 0,
       ((curveRows curve_title df).map (fun r => r.yValue)).getD 0 0) ∧
    (resample fc count).getD (count - 1) (0, 0) =
      (((curveRows curve_title df).map (fun r => r.xValue)).getD
          ((curveRows curve_title df).length - 1) 0,
       ((curveRows curve_title df).map (fun r => r.yValue)).getD
          ((curveRows curve_title df).length - 1) 0) := by
  obtain ⟨hn, hx, hy⟩ := get_fitted_spline_some_elim curve_title df fc hfit
  have hxlen : fc.xVals.length = (curveRows curve_title df).length := by
    rw [hx]; simp
  have hylen : fc.yVals.length = (curveRows curve_title df).length := by
    rw [hy]; simp
  have hn2 : 2 ≤ fc.xVals.length := by omega
  have hstop : (0 : ℚ) < (fc.xVals.length : ℚ) - 1 := by
    have : (2 : ℚ) ≤ (fc.xVals.length : ℚ) := by exact_mod_cast hn2
    linarith
  have hcast : (((fc.xVals.length - 1 : ℕ)) : ℚ) = (fc.xVals.length : ℚ) - 1 := by
    push_cast [Nat.cast_sub (by omega : 1 ≤ fc.xVals.length)]
    ring
  refine ⟨?_, rfl, linspace_strict_mono _ _ _ hstop,
    linspace_first _ _ _ hc, linspace_last _ _ _ hc, ?_, ?_⟩
  · rw [resample]
    simp [linspace_length _ _ _ hc]
  · rw [resample, getD_map_lt _ _ _ _ 0
      (by rw [linspace_length _ _ _ hc]; omega)]
    rw [linspace_first _ _ _ hc]
    have h0 : (0 : ℚ) = ((0 : ℕ) : ℚ) := by norm_num
    rw [h0, splineEval_node fc.xVals 0 hn2 (by omega),
      splineEval_node fc.yVals 0 (by omega) (by omega)]
    rw [hx, hy]
    norm_num
  · rw [resample, getD_map_lt _ _ _ _ 0
      (by rw [linspace_length _ _ _ hc]; omega)]
    rw [linspace_last _ _ _ hc]
    rw [← hcast, splineEval_node fc.xVals (fc.xVals.length - 1) hn2 (by omega)]
    have hcast2 : ((fc.xVals.length - 1 : ℕ) : ℚ) = ((fc.yVals.length - 1 : ℕ) : ℚ) := by
      rw [hxlen, hylen]
    rw [hcast2, splineEval_node fc.yVals (fc.yVals.length - 1) (by omega) (by omega)]
    rw [hx, hy]
    simp only [List.length_map]

/-- Witness for C2: the fitted curve of "A" resampled with count 5. -/
theorem resample_count_endpoints_witness :
    ∃ fc : FittedCurve, get_fitted_spline "A" sampleDF = some fc ∧
      (resample fc 5).length = 5 ∧
      (resample fc 5).getD 0 (0, 0) =
        (((curveRows "A" sampleDF).map (fun r => r.xValue)).getD 0 0,
         ((curveRows "A" sampleDF).map (fun r => r.yValue)).getD 0 0) ∧
      (resample fc 5).getD 4 (0, 0) =
        (((curveRows "A" sampleDF).map (fun r => r.xValue)).getD
            ((curveRows "A" sampleDF).length - 1) 0,
         ((curveRows "A" sampleDF).map (fun r => r.yValue)).getD
            ((curveRows "A" sampleDF).length - 1) 0) := by
  refine ⟨⟨[0, 1, 2, 3], [0, 1, 4, 9], [0, 1, 2, 3], 3, "Diameter in", "critmass kg"⟩,
    by decide, ?_⟩
  have h := resample_count_endpoints "A" sampleDF 5
    ⟨[0, 1, 2, 3], [0, 1, 4, 9], [0, 1, 2, 3], 3, "Diameter in", "critmass kg"⟩
    (by decide) (by omega)
  exact ⟨h.1, h.2.2.2.2.2.1, h.2.2.2.2.2.2⟩

/-- C3: for units registered in a category the conversion factor is
`conversionValue(fromUnit) / conversionValue(toUnit)`; concretely,
inches to centimeters gives 2.54 and element-wise application maps
`[1, 2]` to `[2.54, 5.08]`. -/
theorem conv_factor_ratio :
    (∀ (category fromUnit toUnit : String) (a b : ℚ),
        conversionValue category fromUnit = some a →
        conversionValue category toUnit = some b →
        conv_factor category fromUnit toUnit = a / b) ∧
    conv_factor "length" "inches (in)" "centimeters (cm)" = 2.54 ∧
    applyFactor [1, 2] (conv_factor "length" "inches (in)" "centimeters (cm)")
      = [2.54, 5.08] := by
  refine ⟨?_,
    by simp [conv_factor, conversionValue, categoryUnits, lookupPairs,
        CONVERSION_FACTORS, List.find?] <;> norm_num,
    by simp [applyFactor, conv_factor, conversionValue, categoryUnits,
        lookupPairs, CONVERSION_FACTORS, List.find?] <;> norm_num⟩
  intro category fromUnit toUnit a b ha hb
  have hcat : category ≠ "unknown" := by
    intro habs
    rw [habs] at ha
    have : conversionValue "unknown" fromUnit = none := by
      rw [conversionValue]
      have : categoryUnits "unknown" = none := by decide
      rw [this]
      rfl
    rw [this] at ha
    exact Option.noConfusion ha
  rw [conv_factor, if_neg hcat, ha, hb]
  rfl

/-- Witness for C3's general clause at feet to meters. -/
theorem conv_factor_ratio_witness :
    conversionValue "length" "feet (ft)" = some (30.48 : ℚ) ∧
    conversionValue "length" "meters (m)" = some (100.0 : ℚ) ∧
    conv_factor "length" "feet (ft)" "meters (m)" = (30.48 : ℚ) / (100.0 : ℚ) := by
  have h1 : conversionValue "length" "feet (ft)" = some (30.48 : ℚ) := by
    simp [conversionValue, categoryUnits, lookupPairs, CONVERSION_FACTORS, List.find?]
  have h2 : conversionValue "length" "meters (m)" = some (100.0 : ℚ) := by
    simp [conversionValue, categoryUnits, lookupPairs, CONVERSION_FACTORS, List.find?]
  exact ⟨h1, h2, conv_factor_ratio.1 "length" "feet (ft)" "meters (m)" _ _ h1 h2⟩

/-- C8: a variable name absent from `VARIABLE_TO_CATEGORY` yields the
synthetic "unknown" category, the variable name itself as base unit, a
single-element unit list containing exactly that name, and a conversion
factor of 1.0 on the displayed values (no table lookup is reached: the
"unknown" test short-circuits `conv_factor`). -/
theorem unknown_variable_fallback (var_name : String)
    (h : lookupPairs VARIABLE_TO_CATEGORY var_name = none) :
    get_unit_info var_name = ("unknown", var_name, [var_name]) ∧
    (∀ base_unit unit_selected : String,
        conv_factor (get_unit_info var_name).1 base_unit unit_selected = 1) ∧
    (∀ values : List ℚ, applyFactor values 1 = values) := by
  have h1 : get_unit_info var_name = ("unknown", var_name, [var_name]) := by
    rw [get_unit_info, h]
  refine ⟨h1, ?_, ?_⟩
  · intro base_unit unit_selected
    rw [h1, conv_factor]
    norm_num
  · intro values
    simp [applyFactor]

/-- Witness for C8 at the spec's example "Foo bar". -/
theorem unknown_variable_fallback_witness :
    get_unit_info "Foo bar" = ("unknown", "Foo bar", ["Foo bar"]) ∧
    (∀ base_unit unit_selected : String,
        conv_factor (get_unit_info "Foo bar").1 base_unit unit_selected = 1) ∧
    (∀ values : List ℚ, applyFactor values 1 = values) :=
  unknown_variable_fallback "Foo bar" (by decide)

/-- C10: the fit of the main flow depends only on the selected title's
rows of the full dataset: the sidebar filter selections are not passed
to `get_fitted_spline` (source line 221 hands it the unfiltered `df`),
so any two runs whose datasets agree on the title's rows return
identical splines, sample arrays and axis variable names, whatever the
filter selections. -/
theorem fit_independent_of_filters (selected_title : String)
    (df df2 : List Row) (filters1 filters2 : List (String × Option String))
    (h : curveRows selected_title df = curveRows selected_title df2) :
    main_fit selected_title df filters1 = main_fit selected_title df2 filters2 := by
  rw [main_fit, main_fit, get_fitted_spline, get_fitted_spline, h]

/-- Witness for C10: adding a foreign-titled row and changing the
sidebar geometry filter leaves the fit of curve "A" unchanged. -/
theorem fit_independent_of_filters_witness :
    curveRows "A" sampleDF = curveRows "A" sampleDF2 ∧
    main_fit "A" sampleDF [] =
      main_fit "A" sampleDF2 [("geometry", some "sphere")] :=
  ⟨by decide,
    fit_independent_of_filters "A" sampleDF sampleDF2 []
      [("geometry", some "sphere")] (by decide)⟩

/-- C9 counterexample: for the bound variable "Diameter in",
`get_unit_info` returns "inches (in)", whose registered factor is 2.54,
not 1.0 — it is the variable's native unit, not the category's
first-listed base unit "centimeters (cm)". -/
theorem get_unit_info_not_category_base :
    (get_unit_info "Diameter in").2.1 = "inches (in)" ∧
    conversionValue "length" "inches (in)" = some (2.54 : ℚ) ∧
    (2.54 : ℚ) ≠ 1 ∧
    ((categoryUnits "length").getD []).map Prod.fst =
      ["centimeters (cm)", "meters (m)", "inches (in)", "feet (ft)"] ∧
    conversionValue "length" "centimeters (cm)" = some 1 ∧
    "inches (in)" ≠ "centimeters (cm)" := by
  refine ⟨by simp [get_unit_info, lookupPairs, VARIABLE_TO_CATEGORY, List.find?],
    by simp [conversionValue, categoryUnits, lookupPairs, CONVERSION_FACTORS,
        List.find?],
    by norm_num,
    by simp [categoryUnits, lookupPairs, CONVERSION_FACTORS, List.find?],
    ?_, by decide⟩
  simp [conversionValue, categoryUnits, lookupPairs, CONVERSION_FACTORS,
    List.find?]
  norm_num

/-- C9 (amended): for a variable bound in `VARIABLE_TO_CATEGORY`,
`get_unit_info` returns the bound category, the variable's bound NATIVE
unit (which is registered in the category but need not be the
factor-1.0 base unit) and the category's full ordered unit-name list;
separately, every category's first-listed unit does carry factor 1.0. -/
theorem get_unit_info_known_binding (var_name category native : String)
    (h : lookupPairs VARIABLE_TO_CATEGORY var_name = some (category, native)) :
    get_unit_info var_name =
      (category, native, ((categoryUnits category).getD []).map Prod.fst) ∧
    native ∈ ((categoryUnits category).getD []).map Prod.fst ∧
    (∀ p ∈ CONVERSION_FACTORS, (p.2.map Prod.snd).headD 1 = 1) := by
  refine ⟨by rw [get_unit_info, h], ?_, ?_⟩
  · obtain ⟨q, hfind, hsnd⟩ := Option.map_eq_some'.mp h
    have hmemq : q ∈ VARIABLE_TO_CATEGORY := List.mem_of_find?_eq_some hfind
    fin_cases hmemq <;> simp at hsnd <;> obtain ⟨rfl, rfl⟩ := hsnd <;>
      simp [categoryUnits, lookupPairs, CONVERSION_FACTORS, List.find?]
  · intro p hp
    fin_cases hp <;> simp <;> norm_num

/-- Witness for the amended C9 at "Diameter in". -/
theorem get_unit_info_known_binding_witness :
    lookupPairs VARIABLE_TO_CATEGORY "Diameter in" =
      some ("length", "inches (in)") ∧
    (get_unit_info "Diameter in" =
      ("length", "inches (in)", ((categoryUnits "length").getD []).map Prod.fst) ∧
    "inches (in)" ∈ ((categoryUnits "length").getD []).map Prod.fst ∧
    (∀ p ∈ CONVERSION_FACTORS, (p.2.map Prod.snd).headD 1 = 1)) :=
  ⟨by decide,
    get_unit_info_known_binding "Diameter in" "length" "inches (in)" (by decide)⟩

theorem loadRow_eq_some (r : RawRow) (row : Row) (h : loadRow r = some row) :
    r.xCell = some row.xValue ∧ r.yCell = some row.yValue ∧
    r.title = row.title := by
  rcases hx : r.xCell with _ | x <;> rcases hy : r.yCell with _ | y <;>
    rw [loadRow] at h <;> rw [hx, hy] at h <;> simp at h
  obtain ⟨rfl, rfl, rfl⟩ := h
  simp_all

theorem load_data_filter_valid (rs : List RawRow) :
    load_data rs =
      load_data (rs.filter (fun r => r.xCell.isSome && r.yCell.isSome)) := by
  induction rs with
  | nil => rfl
  | cons r rs ih =>
    rcases hx : r.xCell with _ | x <;> rcases hy : r.yCell with _ | y <;>
      simp [load_data, List.filterMap_cons, List.filter_cons, loadRow, hx, hy] <;>
      simpa [load_data] using ih

theorem load_data_curve_length (rs : List RawRow) (title : String) :
    (curveRows title (load_data rs)).length =
      (rs.filter
        (fun r => r.title = title ∧ r.xCell.isSome ∧ r.yCell.isSome)).length := by
  induction rs with
  | nil => rfl
  | cons r rs ih =>
    rcases hx : r.xCell with _ | x <;> rcases hy : r.yCell with _ | y <;>
      by_cases ht : r.title = title <;>
      simp [load_data, curveRows, List.filterMap_cons, List.filter_cons,
        loadRow, hx, hy, ht] <;>
      simpa [load_data, curveRows] using ih

/-- C6: rows whose x or y cell is non-numeric or missing are dropped
entirely during loading, before grouping into curves: every loaded
sample stems from a row with both cells numeric, dropping the invalid
rows beforehand changes nothing, every curve's point count only counts
its valid rows, and a title all of whose rows are invalid is absent
from the loaded data. -/
theorem load_data_drops_invalid_rows (rs : List RawRow) :
    (∀ row ∈ load_data rs, ∃ r ∈ rs,
        r.xCell = some row.xValue ∧ r.yCell = some row.yValue ∧
        r.title = row.title) ∧
    load_data rs =
      load_data (rs.filter (fun r => r.xCell.isSome && r.yCell.isSome)) ∧
    (∀ title : String, (curveRows title (load_data rs)).length =
        (rs.filter
          (fun r => r.title = title ∧ r.xCell.isSome ∧ r.yCell.isSome)).length) ∧
    (∀ title : String,
        (∀ r ∈ rs, r.title = title → ¬(r.xCell.isSome ∧ r.yCell.isSome)) →
        title ∉ (load_data rs).map Row.title) := by
  refine ⟨?_, load_data_filter_valid rs, load_data_curve_length rs, ?_⟩
  · intro row hrow
    rw [load_data, List.mem_filterMap] at hrow
    obtain ⟨r, hr, hload⟩ := hrow
    obtain ⟨h1, h2, h3⟩ := loadRow_eq_some r row hload
    exact ⟨r, hr, h1, h2, h3⟩
  · intro title hall hmem
    rw [List.mem_map] at hmem
    obtain ⟨row, hrow, htitle⟩ := hmem
    rw [load_data, List.mem_filterMap] at hrow
    obtain ⟨r, hr, hload⟩ := hrow
    obtain ⟨h1, h2, h3⟩ := loadRow_eq_some r row hload
    exact hall r hr (by rw [h3, htitle]) (by simp [h1, h2])

/-- Witness for C6: in `sampleRaw` the invalid rows vanish and curve
"B", whose rows are all invalid, is absent. -/
theorem load_data_drops_invalid_rows_witness :
    load_data sampleRaw =
      load_data (sampleRaw.filter (fun r => r.xCell.isSome && r.yCell.isSome)) ∧
    "B" ∉ (load_data sampleRaw).map Row.title :=
  ⟨(load_data_drops_invalid_rows sampleRaw).2.1,
    (load_data_drops_invalid_rows sampleRaw).2.2.2 "B" (by decide)⟩

/-- C7: the sample order is preserved exactly as ingested through
loading, filtering and fitting — the fitted arrays are the title's rows
in dataset order, the paired samples form an order-preserving
subsequence of the loaded dataset, which itself lists the valid raw
rows in file order — and the synthetic parameter is
`t = 0, 1, ..., n-1`, one integer per sample. -/
theorem fit_preserves_ingestion_order (curve_title : String) (rs : List RawRow)
    (h : 2 ≤ (curveRows curve_title (load_data rs)).length) :
    ∃ fc : FittedCurve,
      get_fitted_spline curve_title (load_data rs) = some fc ∧
      fc.tData = List.range fc.xVals.length ∧
      fc.xVals = (curveRows curve_title (load_data rs)).map (fun r => r.xValue) ∧
      fc.yVals = (curveRows curve_title (load_data rs)).map (fun r => r.yValue) ∧
      (fc.xVals.zip fc.yVals).Sublist
        ((load_data rs).map (fun r => (r.xValue, r.yValue))) ∧
      (load_data rs).map (fun r => (r.xValue, r.yValue)) =
        rs.filterMap
          (fun r => (loadRow r).map (fun row => (row.xValue, row.yValue))) := by
  refine ⟨_, get_fitted_spline_eq_some _ _ h, by simp, rfl, rfl, ?_, ?_⟩
  · rw [List.zip_map', curveRows]
    exact (List.filter_sublist _).map _
  · rw [load_data, List.map_filterMap]

/-- Witness for C7 on the raw sample table. -/
theorem fit_preserves_ingestion_order_witness :
    2 ≤ (curveRows "A" (load_data sampleRaw)).length ∧
    ∃ fc : FittedCurve,
      get_fitted_spline "A" (load_data sampleRaw) = some fc ∧
      fc.tData = List.range fc.xVals.length ∧
      fc.xVals = (curveRows "A" (load_data sampleRaw)).map (fun r => r.xValue) ∧
      fc.yVals = (curveRows "A" (load_data sampleRaw)).map (fun r => r.yValue) ∧
      (fc.xVals.zip fc.yVals).Sublist
        ((load_data sampleRaw).map (fun r => (r.xValue, r.yValue))) ∧
      (load_data sampleRaw).map (fun r => (r.xValue, r.yValue)) =
        sampleRaw.filterMap
          (fun r => (loadRow r).map (fun row => (row.xValue, row.yValue))) :=
  ⟨by decide, fit_preserves_ingestion_order "A" sampleRaw (by decide)⟩
